import Mathlib

/-!
Verification of `src/utils/message_utils.py` (SpectreCore).

The module turns structured chat messages into plain-text outlines:
`MessageUtils.outline_message_list` maps each message segment to a text
fragment and concatenates them, and `MessageUtils.format_history_for_llm`
renders a bounded window of messages as sender/time/content blocks joined
by a divider.

External collaborators (`os.path.exists`, the image-captioning client,
`json.loads`, `datetime.fromtimestamp(...).strftime(...)`) are modelled as
an environment of oracles; a Python call that can raise is an `Except`.
Optional string attributes that the source probes with Python truthiness
(`if i.name`, `msg.sender.nickname or ...`) are plain `String`s where the
empty string stands for an absent/`None` value, matching that truthiness.
-/

/-- Result of Python `json.loads`: either a dict (modelled as an association
list mapping keys to the rendered form of their values, as an f-string would
print them) or any non-dict JSON value. In the source a non-dict result makes
the subsequent membership test or `.get` raise, which the bare `except`
catches, so every non-dict parse ends in the generic placeholder. -/
inductive PyJson where
  | obj (fields : List (String × String))
  | other

/-- Sender record of an `AstrBotMessage` (`msg.sender`). `""` models an
absent/`None` field, matching the truthiness checks at the use sites
(`msg.sender.nickname or "未知用户"`, `msg.sender.user_id or "unknown"`). -/
structure Sender where
  nickname : String
  user_id : String

/-- The external collaborators of `message_utils.py`:
`pathExists` is `os.path.exists`; `caption` is
`ImageCaptionUtils.generate_image_caption` (may raise, may return `None`,
modelled as `Except`/`Option`); `parseJson` is `json.loads` (raises on
invalid input); `fmtTime` is
`datetime.fromtimestamp(t).strftime("%Y-%m-%d %H:%M:%S")` (may raise). -/
structure Env where
  pathExists : String → Bool
  caption : String → Except Unit (Option String)
  parseJson : String → Except Unit PyJson
  fmtTime : Int → Except Unit String

/-- The tagged segment variants dispatched by `outline_message_list`
(lines 131-241 of the source). Each constructor carries exactly the
attributes the corresponding dispatch arm reads; `""` models an
absent/`None`/missing attribute wherever the source uses truthiness or
`getattr(i, attr, '')`. `json` carries `getattr(i, 'data', None)` restricted
by the `isinstance(json_data_attr, str)` guard, so `none` covers both a
missing `data` attribute and a non-string one. `unknown` is the catch-all
`else` arm carrying the raw `i.type` tag. -/
inductive Segment where
  | plain (text : String)
  | image (file url : String)
  | face (id : Int)
  | atUser (qq : String) (name : String)
  | atAll
  | record
  | video
  | rps
  | dice
  | shake
  | anonymous
  | share (title content : String)
  | contact (id : String)
  | location (title content : String)
  | music (title content : String)
  | redBag (title : String)
  | poke (qq : String)
  | forward
  | node
  | nodes
  | xml
  | json (data : Option String)
  | cardImage (source : String)
  | tts (text : String)
  | file (name : String)
  | wechatEmoji
  | reply (chain : List Segment) (message_str : String)
      (sender_nickname : String) (sender_id : String)
  | unknown (type : String)

/-- Python `s.startswith(pre)`: character-level prefix test. -/
def pyStartsWith (s pre : String) : Bool :=
  pre.data.isPrefixOf s.data

/-- Python `s[n:]` for a natural `n`: drop the first `n` characters. -/
def pyDrop (s : String) (n : Nat) : String :=
  String.mk (s.data.drop n)

/-- The body of the image arm shared after reference resolution
(source lines 152-162): call the captioning client, use the caption when it
is truthy, fall back to the bare placeholder when it is `None`/empty, and
swallow any raised fault into the bare placeholder. -/
def captionOutline (env : Env) (image : String) : String :=
  match env.caption image with
  | Except.ok (some c) => if c ≠ "" then "[图片: " ++ c ++ "]" else "[图片]"
  | Except.ok none => "[图片]"
  | Except.error _ => "[图片]"

mutual

/-- One iteration of the dispatch loop in `outline_message_list`
(source lines 132-241): the fragment contributed by a single segment.
The `reply` arm mirrors lines 226-239, recursing into the quoted chain via
`outline_message_list` exactly as the source does. -/
def segFragment (env : Env) : Segment → String
  | Segment.plain text => text
  | Segment.image file url =>
      let image := if file ≠ "" then file else url
      if image ≠ "" then
        if pyStartsWith image "file:///" then
          let image_path := pyDrop image 8
          if env.pathExists image_path = false then
            "[图片: 文件不存在]"
          else
            captionOutline env image_path
        else
          captionOutline env image
      else
        "[图片]"
  | Segment.face id => "[表情:" ++ toString id ++ "]"
  | Segment.atUser qq name =>
      "[At:" ++ qq ++ (if name ≠ "" then "(" ++ name ++ ")" else "") ++ "]"
  | Segment.atAll => "[At:全体成员]"
  | Segment.record => "[语音]"
  | Segment.video => "[视频]"
  | Segment.rps => "[猜拳]"
  | Segment.dice => "[骰子]"
  | Segment.shake => "[抖一抖]"
  | Segment.anonymous => "[匿名]"
  | Segment.share title content =>
      "[分享:《" ++ title ++ "》" ++ (if content ≠ "" then content else "") ++ "]"
  | Segment.contact id => "[联系人:" ++ id ++ "]"
  | Segment.location title content =>
      "[位置:" ++ title ++ (if content ≠ "" then "(" ++ content ++ ")" else "") ++ "]"
  | Segment.music title content =>
      "[音乐:" ++ title ++ (if content ≠ "" then "(" ++ content ++ ")" else "") ++ "]"
  | Segment.redBag title => "[红包:" ++ title ++ "]"
  | Segment.poke qq => "[戳一戳 对:" ++ qq ++ "]"
  | Segment.forward => "[合并转发消息]"
  | Segment.node => "[合并转发消息]"
  | Segment.nodes => "[合并转发消息]"
  | Segment.xml => "[XML消息]"
  | Segment.json data =>
      match data with
      | none => "[JSON消息]"
      | some raw =>
        match env.parseJson raw with
        | Except.error _ => "[JSON消息]"
        | Except.ok PyJson.other => "[JSON消息]"
        | Except.ok (PyJson.obj fields) =>
          match fields.lookup "prompt" with
          | some v => "[JSON卡片:" ++ v ++ "]"
          | none =>
            match fields.lookup "app" with
            | some v => "[小程序:" ++ v ++ "]"
            | none => "[JSON消息]"
  | Segment.cardImage source => "[卡片图片:" ++ source ++ "]"
  | Segment.tts text => "[TTS:" ++ text ++ "]"
  | Segment.file name => "[文件:" ++ name ++ "]"
  | Segment.wechatEmoji => "[微信表情]"
  | Segment.reply chain message_str sender_nickname sender_id =>
      let sender_info :=
        if sender_nickname ≠ "" then sender_nickname ++ "(" ++ sender_id ++ ")"
        else sender_id
      match chain with
      | c :: rest =>
          "[回复(" ++ sender_info ++ ": "
            ++ outline_message_list env (c :: rest) ++ ")]"
      | [] =>
          if message_str ≠ "" then
            "[回复(" ++ sender_info ++ ": " ++ message_str ++ ")]"
          else if sender_nickname ≠ "" ∨ sender_id ≠ "" then
            "[回复(" ++ sender_info ++ ")]"
          else
            "[回复消息]"
  | Segment.unknown type => "[" ++ type ++ "]"

/-- `MessageUtils.outline_message_list` (source lines 116-242): the
`for i in message_list: outline += ...` loop, i.e. the concatenation of the
per-segment fragments in input order starting from `""`. -/
def outline_message_list (env : Env) : List Segment → String
  | [] => ""
  | s :: rest => segFragment env s ++ outline_message_list env rest

end

/-- One `AstrBotMessage` as `format_history_for_llm` reads it: `sender` is
`none` when the attribute is missing or `None` (the `hasattr`/truthiness
guard), `timestamp` is `none` when the attribute is missing (`some 0` is a
present but falsy value), `message` is the segment list (`[]` covers both a
missing and an empty/falsy `msg.message`). -/
structure AstrBotMessage where
  sender : Option Sender
  timestamp : Option Int
  message : List Segment

/-- The `send_time` computation of `format_history_for_llm`
(source lines 89-96): `"未知时间"` unless the timestamp attribute is present
and truthy, in which case the formatted time is used and any formatting
fault falls through (`except: pass`) back to `"未知时间"`. -/
def sendTimeOf (env : Env) (timestamp : Option Int) : String :=
  match timestamp with
  | some t =>
    if t ≠ 0 then
      match env.fmtTime t with
      | Except.ok s => s
      | Except.error _ => "未知时间"
    else "未知时间"
  | none => "未知时间"

/-- The per-message block of `format_history_for_llm`
(source lines 80-104): sender line, time line and content line. -/
def renderMessage (env : Env) (msg : AstrBotMessage) : String :=
  let sender_name :=
    match msg.sender with
    | some s => if s.nickname ≠ "" then s.nickname else "未知用户"
    | none => "未知用户"
  let sender_id :=
    match msg.sender with
    | some s => if s.user_id ≠ "" then s.user_id else "unknown"
    | none => "unknown"
  let send_time := sendTimeOf env msg.timestamp
  let message_content :=
    match msg.message with
    | [] => ""
    | l => outline_message_list env l
  "发送者: " ++ sender_name ++ " (ID: " ++ sender_id ++ ")\n"
    ++ "时间: " ++ send_time ++ "\n"
    ++ "内容: " ++ message_content

/-- Python `lst[-k:]` for a natural `k`, as used on source line 75:
for `k = 0` the slice `lst[-0:]` is `lst[0:]`, the whole list; for `k ≥ 1`
it is the last `k` elements (the whole list when `k ≥ len`). -/
def pySliceLast (l : List AstrBotMessage) (k : Nat) : List AstrBotMessage :=
  if k = 0 then l else l.drop (l.length - k)

/-- The divider logic of the loop on source lines 80-111: every block except
the last is followed by `divider = "\n" + "-" + "\n"`. -/
def joinBlocks : List String → String
  | [] => ""
  | [b] => b
  | b :: b2 :: rest => b ++ "\n-\n" ++ joinBlocks (b2 :: rest)

/-- `MessageUtils.format_history_for_llm` (source lines 59-113): empty input
returns `""`; otherwise the list is cut to `history_messages[-max_messages:]`
when it is longer than `max_messages`, and the rendered blocks are joined
with the divider. -/
def format_history_for_llm (env : Env) (history_messages : List AstrBotMessage)
    (max_messages : Nat) : String :=
  if history_messages.isEmpty then ""
  else
    let kept :=
      if history_messages.length > max_messages then
        pySliceLast history_messages max_messages
      else history_messages
    joinBlocks (kept.map (renderMessage env))

/-- The source's default `max_messages: int = 20`. -/
def format_history_default (env : Env) (history_messages : List AstrBotMessage) : String :=
  format_history_for_llm env history_messages 20

/-- A minimal environment in which every external collaborator fails or
reports absence: no path exists, captioning raises, JSON parsing raises,
time formatting raises. -/
def env0 : Env :=
  ⟨fun _ => false, fun _ => Except.error (), fun _ => Except.error (),
   fun _ => Except.error ()⟩

/-- An environment whose captioning client always succeeds with the caption
`"一只猫"` and where every path exists. -/
def envCat : Env :=
  ⟨fun _ => true, fun _ => Except.ok (some "一只猫"), fun _ => Except.error (),
   fun _ => Except.error ()⟩

/-- An environment whose captioning client always raises and where every
path exists. -/
def envCapFault : Env :=
  ⟨fun _ => true, fun _ => Except.error (), fun _ => Except.error (),
   fun _ => Except.error ()⟩

/-- An environment where no path exists but the captioning client would
succeed if it were ever consulted. -/
def envNoFile : Env :=
  ⟨fun _ => false, fun _ => Except.ok (some "一只猫"), fun _ => Except.error (),
   fun _ => Except.error ()⟩

/-- The image reference after the scheme-stripping step of the image arm
(source lines 141-150): a `file:///` reference becomes the filesystem path
obtained by removing the 8-character prefix, any other reference is passed
to the captioning client unchanged. -/
def resolveImageRef (image : String) : String :=
  if pyStartsWith image "file:///" then pyDrop image 8 else image

/-- C1: the catch-all dispatch arm maps any unrecognized segment variant to
the raw type tag in brackets, a non-empty bracketed fragment (its length is
the tag's length plus the two brackets), and the outliner appends every
segment's fragment to the accumulated outline, so no segment is silently
dropped. -/
theorem C1_total_fallback (env : Env) (tag : String) (s : Segment)
    (rest : List Segment) :
    segFragment env (Segment.unknown tag) = "[" ++ tag ++ "]"
    ∧ (segFragment env (Segment.unknown tag)).length = tag.length + 2
    ∧ outline_message_list env (s :: rest)
        = segFragment env s ++ outline_message_list env rest := by
  refine ⟨rfl, ?_, rfl⟩
  have h1 : "[".length = 1 := rfl
  have h2 : "]".length = 1 := rfl
  simp [segFragment, String.length_append, h1, h2]
  omega

/-- C2: an Image segment whose persisted `file` reference uses the
`file:///` scheme and whose stripped path does not exist produces exactly
`[图片: 文件不存在]`, and the result is the same for every possible
captioning client, so the captioning client is never invoked. -/
theorem C2_missing_persisted_file (env : Env) (file url : String)
    (hfile : file ≠ "") (hscheme : pyStartsWith file "file:///" = true)
    (hmissing : env.pathExists (pyDrop file 8) = false) :
    ∀ cap : String → Except Unit (Option String),
      segFragment ⟨env.pathExists, cap, env.parseJson, env.fmtTime⟩
        (Segment.image file url) = "[图片: 文件不存在]" := by
  intro cap
  simp [segFragment, hfile, hscheme, hmissing]

/-- C2 witness: a concrete missing `file:///` image in an environment whose
captioning client would return a caption if it were consulted. -/
theorem C2_missing_persisted_file_witness :
    segFragment envNoFile (Segment.image "file:///missing.png" "")
      = "[图片: 文件不存在]" :=
  C2_missing_persisted_file envNoFile "file:///missing.png" ""
    (by decide) (by decide) rfl envNoFile.caption

/-- C3: for an Image segment whose reference resolves (its persisted path
exists whenever the `file:///` scheme is used), a successful non-empty
caption `c` yields exactly `[图片: ` `c` `]`; an absent or empty caption
yields exactly `[图片]`; and a raised captioning fault is swallowed into
exactly `[图片]`, never propagated (the outliner is a total function into
`String`). -/
theorem C3_caption_cases (env : Env) (file url c : String)
    (hfile : file ≠ "")
    (hres : pyStartsWith file "file:///" = true →
      env.pathExists (pyDrop file 8) = true) :
    (env.caption (resolveImageRef file) = Except.ok (some c) ∧ c ≠ "" →
        segFragment env (Segment.image file url) = "[图片: " ++ c ++ "]")
    ∧ ((env.caption (resolveImageRef file) = Except.ok none
        ∨ env.caption (resolveImageRef file) = Except.ok (some "")) →
        segFragment env (Segment.image file url) = "[图片]")
    ∧ (env.caption (resolveImageRef file) = Except.error () →
        segFragment env (Segment.image file url) = "[图片]") := by
  have href : segFragment env (Segment.image file url)
      = captionOutline env (resolveImageRef file) := by
    cases hs : pyStartsWith file "file:///" with
    | false => simp [segFragment, resolveImageRef, hfile, hs]
    | true => simp [segFragment, resolveImageRef, hfile, hs, hres hs]
  refine ⟨?_, ?_, ?_⟩
  · rintro ⟨hc, hcne⟩
    rw [href]
    simp [captionOutline, hc, hcne]
  · rintro (hc | hc) <;> rw [href] <;> simp [captionOutline, hc]
  · intro hc
    rw [href]
    simp [captionOutline, hc]

/-- C3 witness: a concrete remote image reference captioned as `一只猫`
gives `[图片: 一只猫]`, and the same reference under a raising captioning
client gives `[图片]`. -/
theorem C3_caption_cases_witness :
    segFragment envCat (Segment.image "cat.png" "") = "[图片: 一只猫]"
    ∧ segFragment envCapFault (Segment.image "cat.png" "") = "[图片]" :=
  ⟨(C3_caption_cases envCat "cat.png" "" "一只猫" (by decide)
      (fun _ => rfl)).1 ⟨rfl, by decide⟩,
   (C3_caption_cases envCapFault "cat.png" "" "" (by decide)
      (fun _ => rfl)).2.2 rfl⟩

/-- C4 counterexample: the ShareLink arm does not render
`[分享:<title>(<content>)]` / `[分享:<title>]` as claimed: it renders the
title inside `《...》` marks and appends the content bare, without
parentheses. -/
theorem C4_share_counterexample :
    segFragment env0 (Segment.share "t" "c") = "[分享:《t》c]"
    ∧ segFragment env0 (Segment.share "t" "c") ≠ "[分享:t(c)]"
    ∧ segFragment env0 (Segment.share "t" "") = "[分享:《t》]"
    ∧ segFragment env0 (Segment.share "t" "") ≠ "[分享:t]" :=
  ⟨rfl, by decide, rfl, by decide⟩

/-- C4 amended: LocationPin and MusicCard render
`[<kind>:<title>(<content>)]` when content is present and `[<kind>:<title>]`
otherwise (kinds 位置 and 音乐); ShareLink instead renders
`[分享:《<title>》<content>]` when content is present and `[分享:《<title>》]`
otherwise. -/
theorem C4_card_formats (env : Env) (title content : String) :
    (content ≠ "" →
        segFragment env (Segment.share title content)
          = "[分享:《" ++ title ++ "》" ++ content ++ "]"
        ∧ segFragment env (Segment.location title content)
          = "[位置:" ++ title ++ "(" ++ content ++ ")]"
        ∧ segFragment env (Segment.music title content)
          = "[音乐:" ++ title ++ "(" ++ content ++ ")]")
    ∧ (content = "" →
        segFragment env (Segment.share title content)
          = "[分享:《" ++ title ++ "》]"
        ∧ segFragment env (Segment.location title content)
          = "[位置:" ++ title ++ "]"
        ∧ segFragment env (Segment.music title content)
          = "[音乐:" ++ title ++ "]") := by
  constructor
  · intro h
    refine ⟨?_, ?_, ?_⟩ <;> simp [segFragment, h, String.append_assoc]
  · intro h
    refine ⟨?_, ?_, ?_⟩ <;> simp [segFragment, h, String.append_assoc]

/-- C4 witness: concrete location and music cards with and without
content. -/
theorem C4_card_formats_witness :
    segFragment env0 (Segment.location "t" "c") = "[位置:t(c)]"
    ∧ segFragment env0 (Segment.music "t" "") = "[音乐:t]" :=
  ⟨((C4_card_formats env0 "t" "c").1 (by decide)).2.1,
   ((C4_card_formats env0 "t" "").2 rfl).2.2⟩

/-- C5: a JsonPayload with no usable raw string gives `[JSON消息]`; a parse
fault is swallowed into `[JSON消息]`; a non-object parse gives `[JSON消息]`;
an object with a `prompt` key gives `[JSON卡片:<prompt>]` regardless of any
`app` key (precedence); an object with an `app` key but no `prompt` key
gives `[小程序:<app>]`; an object with neither gives `[JSON消息]`. -/
theorem C5_json_dispatch (env : Env) (raw v : String)
    (fields : List (String × String)) :
    segFragment env (Segment.json none) = "[JSON消息]"
    ∧ (env.parseJson raw = Except.error () →
        segFragment env (Segment.json (some raw)) = "[JSON消息]")
    ∧ (env.parseJson raw = Except.ok PyJson.other →
        segFragment env (Segment.json (some raw)) = "[JSON消息]")
    ∧ (env.parseJson raw = Except.ok (PyJson.obj fields) →
        fields.lookup "prompt" = some v →
        segFragment env (Segment.json (some raw)) = "[JSON卡片:" ++ v ++ "]")
    ∧ (env.parseJson raw = Except.ok (PyJson.obj fields) →
        fields.lookup "prompt" = none → fields.lookup "app" = some v →
        segFragment env (Segment.json (some raw)) = "[小程序:" ++ v ++ "]")
    ∧ (env.parseJson raw = Except.ok (PyJson.obj fields) →
        fields.lookup "prompt" = none → fields.lookup "app" = none →
        segFragment env (Segment.json (some raw)) = "[JSON消息]") := by
  refine ⟨rfl, ?_, ?_, ?_, ?_, ?_⟩
  · intro h
    simp [segFragment, h]
  · intro h
    simp [segFragment, h]
  · intro h hp
    simp [segFragment, h, hp]
  · intro h hp ha
    simp [segFragment, h, hp, ha]
  · intro h hp ha
    simp [segFragment, h, hp, ha]

/-- An environment whose JSON parser recognizes two concrete payloads (one
with a `prompt` key, one with an `app` key) and raises on everything else. -/
def envJson : Env :=
  ⟨fun _ => false, fun _ => Except.ok none,
   fun s =>
     if s = "p" then Except.ok (PyJson.obj [("prompt", "draw a cat")])
     else if s = "a" then Except.ok (PyJson.obj [("app", "mini")])
     else Except.error (),
   fun _ => Except.error ()⟩

/-- C5 witness: the spec's three JSON examples under `envJson`. -/
theorem C5_json_dispatch_witness :
    segFragment envJson (Segment.json (some "p")) = "[JSON卡片:draw a cat]"
    ∧ segFragment envJson (Segment.json (some "a")) = "[小程序:mini]"
    ∧ segFragment envJson (Segment.json (some "bad")) = "[JSON消息]" :=
  ⟨(C5_json_dispatch envJson "p" "draw a cat"
      [("prompt", "draw a cat")]).2.2.2.1 rfl rfl,
   (C5_json_dispatch envJson "a" "mini"
      [("app", "mini")]).2.2.2.2.1 rfl rfl rfl,
   (C5_json_dispatch envJson "bad" "" []).2.1 rfl⟩

/-- C6 counterexample: with `max_messages = 0` and one message the claim
demands that the last 0 messages be retained, i.e. an empty output, but the
source's slice `history_messages[-0:]` is `history_messages[0:]`, the whole
list, so the single message is rendered in full. -/
theorem C6_max_zero_counterexample :
    format_history_for_llm env0 [⟨some ⟨"a", "1"⟩, none, []⟩] 0
      = "发送者: a (ID: 1)\n时间: 未知时间\n内容: "
    ∧ format_history_for_llm env0 [⟨some ⟨"a", "1"⟩, none, []⟩] 0 ≠ "" :=
  ⟨rfl, by decide⟩

/-- C6 amended: for every positive maximum count, the history formatter
keeps exactly the last `m` messages in original relative order (all of them
when the list is not longer than `m`), renders each with `renderMessage`
(the three-line sender/time/content block), and joins the blocks so that
every block except the last is followed by exactly one `\n-\n` separator;
the empty input yields the empty string. For `max_messages = 0` the source
instead keeps the whole list. -/
theorem C6_history_window (env : Env) (msgs : List AstrBotMessage)
    (m : Nat) (hmax : 1 ≤ m) :
    format_history_for_llm env msgs m
      = joinBlocks ((msgs.drop (msgs.length - m)).map (renderMessage env))
    ∧ format_history_for_llm env [] m = ""
    ∧ ∀ (bs : List String) (b : String),
        joinBlocks (bs ++ [b])
          = if bs.isEmpty then b else joinBlocks bs ++ "\n-\n" ++ b := by
  have hne : m ≠ 0 := Nat.one_le_iff_ne_zero.mp hmax
  have hslice : ∀ l : List AstrBotMessage,
      (if l.length > m then pySliceLast l m else l) = l.drop (l.length - m) := by
    intro l
    by_cases hlen : l.length > m
    · rw [if_pos hlen]
      unfold pySliceLast
      rw [if_neg hne]
    · rw [if_neg hlen, Nat.sub_eq_zero_of_le (Nat.le_of_not_lt hlen),
        List.drop_zero]
  refine ⟨?_, rfl, ?_⟩
  · cases msgs with
    | nil => simp [format_history_for_llm, joinBlocks]
    | cons x rest =>
      have hx := hslice (x :: rest)
      simp only [format_history_for_llm, List.isEmpty_cons, Bool.false_eq_true,
        if_false, hx]
  · intro bs b
    induction bs with
    | nil => rfl
    | cons x xs ih =>
      cases xs with
      | nil => rfl
      | cons y ys =>
        have ih2 : joinBlocks (y :: (ys ++ [b]))
            = joinBlocks (y :: ys) ++ "\n-\n" ++ b := by
          simpa using ih
        calc joinBlocks ((x :: y :: ys) ++ [b])
            = x ++ "\n-\n" ++ joinBlocks (y :: (ys ++ [b])) := rfl
          _ = x ++ "\n-\n" ++ (joinBlocks (y :: ys) ++ "\n-\n" ++ b) := by
              rw [ih2]
          _ = (x ++ "\n-\n" ++ joinBlocks (y :: ys)) ++ "\n-\n" ++ b := by
              simp [String.append_assoc]
          _ = if (x :: y :: ys).isEmpty then b
              else joinBlocks (x :: y :: ys) ++ "\n-\n" ++ b := by
              simp [joinBlocks]

/-- C6 witness: three messages with `max_messages = 2` keep only the last
two, in order, joined by a single separator and without a trailing one. -/
theorem C6_history_window_witness :
    (1 : Nat) ≤ 2
    ∧ format_history_for_llm env0
        [⟨some ⟨"a", "1"⟩, none, []⟩, ⟨some ⟨"b", "2"⟩, none, []⟩,
         ⟨some ⟨"c", "3"⟩, none, []⟩] 2
      = "发送者: b (ID: 2)\n时间: 未知时间\n内容: \n-\n发送者: c (ID: 3)\n时间: 未知时间\n内容: " := by
  refine ⟨by decide, ?_⟩
  have h := (C6_history_window env0
      [⟨some ⟨"a", "1"⟩, none, []⟩, ⟨some ⟨"b", "2"⟩, none, []⟩,
       ⟨some ⟨"c", "3"⟩, none, []⟩] 2 (by decide)).1
  rw [h]
  rfl

/-- C7: the outliner is exactly the order-preserving concatenation of the
per-segment fragments with no separator; the empty sequence gives the empty
string, and the PlainText sequence a, b, c gives exactly `abc`. -/
theorem C7_concat_in_order (env : Env) (segs : List Segment) :
    outline_message_list env segs
      = (segs.map (segFragment env)).foldr (fun a b => a ++ b) ""
    ∧ outline_message_list env ([] : List Segment) = ""
    ∧ outline_message_list env0
        [Segment.plain "a", Segment.plain "b", Segment.plain "c"] = "abc" := by
  refine ⟨?_, rfl, by decide⟩
  induction segs with
  | nil => rfl
  | cons s rest ih => simp [outline_message_list, ih]

/-- C8: the QuotedReply arm's precedence is (a) non-empty quoted chain:
recursively outline it and wrap as `[回复(<sender>: <outline>)]`; (b) else
non-empty quoted plain text: `[回复(<sender>: <text>)]`; (c) else some
sender identity: `[回复(<sender>)]`; (d) else the generic `[回复消息]`;
where the sender label is `<nickname>(<id>)` when a nickname is present and
the bare `<id>` otherwise. -/
theorem C8_reply_precedence (env : Env) (chain : List Segment)
    (message_str nick sid : String) :
    (chain ≠ [] →
        segFragment env (Segment.reply chain message_str nick sid)
          = "[回复(" ++ (if nick ≠ "" then nick ++ "(" ++ sid ++ ")" else sid)
              ++ ": " ++ outline_message_list env chain ++ ")]")
    ∧ (chain = [] → message_str ≠ "" →
        segFragment env (Segment.reply chain message_str nick sid)
          = "[回复(" ++ (if nick ≠ "" then nick ++ "(" ++ sid ++ ")" else sid)
              ++ ": " ++ message_str ++ ")]")
    ∧ (chain = [] → message_str = "" → (nick ≠ "" ∨ sid ≠ "") →
        segFragment env (Segment.reply chain message_str nick sid)
          = "[回复("
              ++ (if nick ≠ "" then nick ++ "(" ++ sid ++ ")" else sid)
              ++ ")]")
    ∧ (chain = [] → message_str = "" → nick = "" → sid = "" →
        segFragment env (Segment.reply chain message_str nick sid)
          = "[回复消息]") := by
  refine ⟨?_, ?_, ?_, ?_⟩
  · intro h
    cases chain with
    | nil => exact absurd rfl h
    | cons c rest => simp [segFragment, String.append_assoc]
  · intro hc hm
    subst hc
    simp [segFragment, hm, String.append_assoc]
  · intro hc hm hs
    subst hc
    subst hm
    simp [segFragment, hs, String.append_assoc]
  · intro hc hm hn hs
    subst hc
    subst hm
    subst hn
    subst hs
    rfl

/-- C8 witness: one concrete reply for each of the four precedence cases. -/
theorem C8_reply_precedence_witness :
    segFragment env0 (Segment.reply [Segment.plain "x"] "" "n" "7")
      = "[回复(n(7): x)]"
    ∧ segFragment env0 (Segment.reply [] "hello" "" "7")
      = "[回复(7: hello)]"
    ∧ segFragment env0 (Segment.reply [] "" "n" "") = "[回复(n())]"
    ∧ segFragment env0 (Segment.reply [] "" "" "") = "[回复消息]" :=
  ⟨((C8_reply_precedence env0 [Segment.plain "x"] "" "n" "7").1
      (by simp)).trans (by decide),
   ((C8_reply_precedence env0 [] "hello" "" "7").2.1 rfl
      (by decide)).trans (by decide),
   ((C8_reply_precedence env0 [] "" "n" "").2.2.1 rfl rfl
      (Or.inl (by decide))).trans (by decide),
   (C8_reply_precedence env0 [] "" "" "").2.2.2 rfl rfl rfl rfl⟩

/-- A quoted-reply chain nested to the given depth: depth 0 is a plain
`x`, depth `n+1` is a reply quoting the depth-`n` chain with sender id `1`. -/
def nestedReplyChain : Nat → Segment
  | 0 => Segment.plain "x"
  | n + 1 => Segment.reply [nestedReplyChain n] "" "" "1"

/-- C9 counterexample: the source has no recursion-depth cap and no fatal
error path — `outline_message_list` and `format_history_for_llm` are total
functions into `String` — so a deeply nested quoted-reply chain (depth 6
here) is expanded into an ordinary placeholder string and the overall
history-formatting operation completes normally instead of any
depth-violation abort being reported. -/
theorem C9_no_depth_cap_counterexample :
    format_history_for_llm env0 [⟨none, none, [nestedReplyChain 6]⟩] 20
      = "发送者: 未知用户 (ID: unknown)\n时间: 未知时间\n内容: [回复(1: [回复(1: [回复(1: [回复(1: [回复(1: [回复(1: x)])])])])])]" := by
  decide

/-- C9 amended: recursive expansion of quoted-reply chains is bounded only
by the structural depth of the input data: at every depth the outliner
succeeds, wrapping the next level's non-empty outline in one more reply
placeholder, and no input makes history formatting abort (there is no
recursion-depth cap and no fatal-error channel in the source). -/
theorem C9_structural_recursion (env : Env) (n : Nat) :
    segFragment env (nestedReplyChain (n + 1))
      = "[回复(1: " ++ segFragment env (nestedReplyChain n) ++ ")]"
    ∧ 0 < (segFragment env (nestedReplyChain n)).length := by
  have heq : ∀ k : Nat, segFragment env (nestedReplyChain (k + 1))
      = "[回复(1: " ++ segFragment env (nestedReplyChain k) ++ ")]" := by
    intro k
    simp [nestedReplyChain, segFragment, outline_message_list]
  refine ⟨heq n, ?_⟩
  cases n with
  | zero =>
    have hx : segFragment env (nestedReplyChain 0) = "x" := rfl
    rw [hx]
    decide
  | succ k =>
    rw [heq k]
    have h7 : ("[回复(1: " : String).length = 7 := rfl
    simp [String.length_append, h7]

/-- C10: a message whose timestamp is present but equal to `0` (a valid
epoch second) renders its time line as the `未知时间` placeholder exactly as
if the timestamp were absent, because the truthiness guard
`if ... and msg.timestamp` treats `0` as missing; this holds for the block
renderer and for the whole history formatter. -/
theorem C10_zero_timestamp (env : Env) (sender : Option Sender)
    (segs : List Segment) :
    sendTimeOf env (some 0) = "未知时间"
    ∧ renderMessage env ⟨sender, some 0, segs⟩
        = renderMessage env ⟨sender, none, segs⟩
    ∧ format_history_for_llm env [⟨sender, some 0, segs⟩] 20
        = format_history_for_llm env [⟨sender, none, segs⟩] 20 := by
  have h2 : renderMessage env ⟨sender, some 0, segs⟩
      = renderMessage env ⟨sender, none, segs⟩ := by
    simp [renderMessage, sendTimeOf]
  refine ⟨rfl, h2, ?_⟩
  simp [format_history_for_llm, joinBlocks, h2]
